import Mathlib

/-!
Verification of the `SimpleRAGPipeline` core (src/rag_pipeline.py).

Strings are modelled as lists of characters (`Str`).  Python's `in`
operator on strings is `containsSubstr`, `.strip()` is `pyStrip`,
`.lower()` is `pyLower`, and the truthiness-based `a or b` idiom on
optional strings is `pyOrStr`.  The three external collaborators
(document retriever, Wikipedia backend, language model) are parameters of
the pipeline; the two whose exceptions the pipeline does not catch are
modelled with `Except`, and the Wikipedia backend, whose exceptions are
caught inside `_get_wikipedia_results`, as well.
-/

set_option maxRecDepth 100000

abbrev Str := List Char

/-- Python whitespace for `.strip()` (ASCII fragment). -/
def isPyWhitespace (c : Char) : Bool :=
  c = ' ' || c = '\t' || c = '\n' || c = '\x0d' || c = '\x0b' || c = '\x0c'

/-- Python `s.strip()`: drop whitespace from both ends. -/
def pyStrip (s : Str) : Str :=
  ((s.dropWhile isPyWhitespace).reverse.dropWhile isPyWhitespace).reverse

/-- Python `s.lower()` (ASCII fragment). -/
def pyLower (s : Str) : Str := s.map Char.toLower

/-- Python `needle in hay` for strings: substring containment. -/
def containsSubstr (needle : Str) : Str → Bool
  | [] => needle.isEmpty
  | c :: rest => needle.isPrefixOf (c :: rest) || containsSubstr needle rest

/-- Python `a or b` where `a` is an optional string: `b` when `a` is
`None` or empty, otherwise `a`'s value. -/
def pyOrStr : Option Str → Str → Str
  | none, b => b
  | some s, b => if s.isEmpty then b else s

/-- Truthiness of an optional string (`None` and `""` are falsy). -/
def truthyStr : Option Str → Bool
  | none => false
  | some s => !s.isEmpty

/-- Sentinel returned by `_get_retriever_results` for an empty doc list. -/
def noDocsSentinel : Str := "No documents found.".data

/-- Substring tested by `"No documents found" in retriever_results`. -/
def noDocsCheck : Str := "No documents found".data

/-- Sentinel returned by `_get_wikipedia_results` on backend failure. -/
def couldNotRetrieveSentinel : Str := "Could not retrieve Wikipedia information.".data

/-- Substring tested by `"Could not retrieve" in wikipedia_results`. -/
def couldNotRetrieveCheck : Str := "Could not retrieve".data

/-- Sentinel answer for a model response without textual content. -/
def couldNotGenerate : Str := "Could not generate answer.".data

/-- Sentinel context when no section qualifies. -/
def noRelevantSentinel : Str := "No relevant information found.".data

/-- The blank-line separator `"\n\n"` used by both joins. -/
def nl2 : Str := "\n\n".data

/-- List `general_knowledge_indicators` from `_should_use_wikipedia`. -/
def general_knowledge_indicators : List Str :=
  ["what is".data, "who is".data, "define".data, "explain".data, "history of".data,
   "when was".data, "where is".data, "how does".data, "what are".data]

/-- Method `SimpleRAGPipeline._should_use_wikipedia(question, retriever_results)`. -/
def should_use_wikipedia (question retriever_results : Str) : Bool :=
  if retriever_results.isEmpty || containsSubstr noDocsCheck retriever_results then
    true
  else if (pyStrip retriever_results).length < 200 then
    true
  else
    (general_knowledge_indicators.any fun indicator =>
        containsSubstr indicator (pyLower question))
      && decide ((pyStrip retriever_results).length < 500)

/-- The `needs_wikipedia` expression in `SimpleRAGPipeline.run` (the
sufficiency evaluator, spec name `needsFallback`). -/
def needs_wikipedia (question retriever_results : Str) : Bool :=
  containsSubstr noDocsCheck retriever_results
    || decide ((pyStrip retriever_results).length < 100)
    || should_use_wikipedia question retriever_results

/-- A langchain `Document`: content plus a metadata map (string keys and
string values; `metadata.get` is an optional lookup). -/
structure Document where
  page_content : Str
  metadata : List (Str × Str)

/-- Python `meta.get(key)`: optional lookup in the metadata map. -/
def lookupMeta (meta : List (Str × Str)) (key : Str) : Option Str :=
  (meta.find? fun kv => kv.1 == key).map Prod.snd

/-- The synthesized label `f"doc_{i}"`. -/
def docLabel (i : Nat) : Str := "doc_".data ++ (Nat.repr i).data

/-- Label choice `meta.get("title") or meta.get("source") or f"doc_\x7bi\x7d"`. -/
def chooseTitle (meta : List (Str × Str)) (i : Nat) : Str :=
  pyOrStr (lookupMeta meta "title".data)
    (pyOrStr (lookupMeta meta "source".data) (docLabel i))

/-- One merged entry `f"[{i}] {title}\n{d.page_content}"`. -/
def renderDoc (i : Nat) (d : Document) : Str :=
  "[".data ++ (Nat.repr i).data ++ "] ".data
    ++ chooseTitle d.metadata i ++ "\n".data ++ d.page_content

/-- The loop `for i, d in enumerate(docs[:8], start=1)` body, numbering
from `i`. -/
def renderFrom (i : Nat) : List Document → List Str
  | [] => []
  | d :: ds => renderDoc i d :: renderFrom (i + 1) ds

/-- The pure formatting core of `_get_retriever_results`: empty check,
truncation to 8 items, rendering, blank-line join. -/
def formatDocs (docs : List Document) : Str :=
  if docs.isEmpty then noDocsSentinel
  else List.intercalate nl2 (renderFrom 1 (docs.take 8))

/-- A language-model response exposing optional textual `content`
(`getattr(response, "content", None)` reads it). -/
structure Response where
  content : Option Str

/-- The record returned by `SimpleRAGPipeline.run`. -/
structure AnswerResult where
  question : Str
  retrieved_docs : List Document
  answer : Str

/-- The three external collaborators handed to `SimpleRAGPipeline`;
`ε` is the type of exceptions they may raise. -/
structure Collaborators (ε : Type) where
  retriever : Str → Except ε (List Document)
  wikiBackend : Str → Except ε Str
  llm : Str → Except ε Response

/-- Method `SimpleRAGPipeline._get_retriever_results`: invoke the retriever
and format its output. -/
def get_retriever_results {ε : Type} (retriever : Str → Except ε (List Document))
    (query : Str) : Except ε Str := do
  let docs ← retriever query
  return formatDocs docs

/-- Method `SimpleRAGPipeline._get_wikipedia_results`: run the backend,
catching every failure and converting it to the sentinel. -/
def get_wikipedia_results {ε : Type} (wikiBackend : Str → Except ε Str)
    (query : Str) : Str :=
  match wikiBackend query with
  | .ok s => s
  | .error _ => couldNotRetrieveSentinel

/-- The corpus part of `context_parts`: included only when the formatted
retriever text is truthy and lacks the no-documents substring. -/
def corpusSection (retriever_results : Str) : List Str :=
  if !retriever_results.isEmpty && !containsSubstr noDocsCheck retriever_results then
    ["Document corpus results:\n".data ++ retriever_results]
  else []

/-- The Wikipedia part of `context_parts`: included only when the fetched
text is truthy and lacks the could-not-retrieve substring. -/
def wikiSection (wikipedia_results : Str) : List Str :=
  if !wikipedia_results.isEmpty
      && !containsSubstr couldNotRetrieveCheck wikipedia_results then
    ["Wikipedia results:\n".data ++ wikipedia_results]
  else []

/-- Variable `context_parts` as assembled in `run`: corpus section first,
then the Wikipedia section only when the fallback was consulted. -/
def contextParts (retriever_results : Str) (needs : Bool)
    (wikipedia_results : Str) : List Str :=
  corpusSection retriever_results
    ++ (if needs then wikiSection wikipedia_results else [])

/-- Variable `full_context`: blank-line join of the parts, or the sentinel
when no part qualifies. -/
def fullContext (parts : List Str) : Str :=
  if parts.isEmpty then noRelevantSentinel else List.intercalate nl2 parts

/-- The prompt f-string built in `run`. -/
def buildPrompt (full_context question : Str) : Str :=
  "You are a helpful RAG agent. Prefer 'retriever' for user-provided docs; use 'wikipedia' for general knowledge. Return only the final useful answer.\n\nAvailable information:\n".data
    ++ full_context
    ++ "\n\nQuestion: ".data ++ question
    ++ "\n\nProvide a comprehensive answer based on the available information:".data

/-- Method `SimpleRAGPipeline.run(question)`. -/
def runPipeline {ε : Type} (C : Collaborators ε) (question : Str) :
    Except ε AnswerResult := do
  let retrieved_docs ← C.retriever question
  let retriever_results ← get_retriever_results C.retriever question
  let needs := needs_wikipedia question retriever_results
  let context_parts :=
    contextParts retriever_results needs
      (get_wikipedia_results C.wikiBackend question)
  let full_context := fullContext context_parts
  let prompt := buildPrompt full_context question
  let response ← C.llm prompt
  let answer := pyOrStr response.content couldNotGenerate
  return { question := question, retrieved_docs := retrieved_docs, answer := answer }

/-- Document used in the counterexample to the "trimmed length ≥ 500"
claim: its content embeds the no-documents substring. -/
def longSentinelDoc : Document :=
  { page_content := noDocsCheck ++ List.replicate 500 'a', metadata := [] }

/-- Nine bare documents, used to exercise the truncation to 8. -/
def nineDocs : List Document :=
  List.replicate 9 { page_content := "x".data, metadata := [] }

/-- Collaborators that always succeed, for concrete runs. -/
def okC : Collaborators Unit :=
  { retriever := fun _ => .ok []
    wikiBackend := fun _ => .ok "w".data
    llm := fun _ => .ok { content := some "hi".data } }

/-- Collaborators whose model response exposes no content. -/
def noContentC : Collaborators Unit :=
  { retriever := fun _ => .ok []
    wikiBackend := fun _ => .ok "w".data
    llm := fun _ => .ok { content := none } }

/-- Collaborators whose retriever raises. -/
def failRetrieverC : Collaborators Nat :=
  { retriever := fun _ => .error 0
    wikiBackend := fun _ => .ok "w".data
    llm := fun _ => .ok { content := some "a".data } }

/-! ## Helper lemmas -/

theorem isEmpty_false_of_strip_pos (text : Str) (h : 0 < (pyStrip text).length) :
    text.isEmpty = false := by
  cases text with
  | nil => exact absurd h (by decide)
  | cons c cs => rfl

theorem renderFrom_length (ds : List Document) (n : Nat) :
    (renderFrom n ds).length = ds.length := by
  induction ds generalizing n with
  | nil => rfl
  | cons d ds ih => simp [renderFrom, ih]

theorem renderFrom_getElem? (ds : List Document) (n k : Nat) :
    (renderFrom n ds)[k]? = (ds[k]?).map (renderDoc (n + k)) := by
  induction ds generalizing n k with
  | nil => simp [renderFrom]
  | cons d ds ih =>
    cases k with
    | zero => simp [renderFrom]
    | succ k =>
      simp only [renderFrom, List.getElem?_cons_succ, ih]
      have : n + 1 + k = n + (k + 1) := by omega
      rw [this]

theorem intercalate_single (x : Str) : List.intercalate nl2 [x] = x := by
  simp [List.intercalate]

theorem intercalate_pair (x y : Str) :
    List.intercalate nl2 [x, y] = x ++ nl2 ++ y := by
  simp [List.intercalate, List.intersperse]

theorem fullContext_single (x : Str) : fullContext [x] = x := by
  simp [fullContext, intercalate_single]

theorem fullContext_pair (x y : Str) : fullContext [x, y] = x ++ nl2 ++ y := by
  simp [fullContext, intercalate_pair]

theorem ne_sentinel_of_head (s : Str) (c : Char) (hs : s.head? = some c)
    (hc : c ≠ 'N') : s ≠ noRelevantSentinel := by
  intro h
  rw [h] at hs
  have h2 : some 'N' = some c := hs
  exact hc (Option.some.inj h2).symm

theorem corpusSection_cases (rr : Str) :
    corpusSection rr = [] ∨
    corpusSection rr = ["Document corpus results:\n".data ++ rr] := by
  unfold corpusSection
  split
  · right; rfl
  · left; rfl

theorem wikiSection_cases (wr : Str) :
    wikiSection wr = [] ∨
    wikiSection wr = ["Wikipedia results:\n".data ++ wr] := by
  unfold wikiSection
  split
  · right; rfl
  · left; rfl

/-! ## Claims -/

/-- C3: `needsFallback` is true whenever the primary text contains the
no-documents sentinel substring or its trimmed length is under 200
characters, regardless of the question. -/
theorem needs_wikipedia_of_sentinel_or_short (question retriever_results : Str)
    (h : containsSubstr noDocsCheck retriever_results = true ∨
         (pyStrip retriever_results).length < 200) :
    needs_wikipedia question retriever_results = true := by
  unfold needs_wikipedia should_use_wikipedia
  rcases h with h | h
  · simp [h]
  · by_cases h100 : (pyStrip retriever_results).length < 100
    · simp [h100]
    · simp [h]

/-- Witness for C3 at a concrete short input. -/
theorem needs_wikipedia_of_sentinel_or_short_witness :
    needs_wikipedia "anything".data "tiny".data = true :=
  needs_wikipedia_of_sentinel_or_short "anything".data "tiny".data
    (Or.inr (by decide))

/-- C1 (counterexample): a formatted primary text of trimmed length at
least 500 on which the sufficiency evaluator still returns true, because
the text embeds the no-documents substring. -/
theorem needs_wikipedia_long_text_cex :
    500 ≤ (pyStrip (formatDocs [longSentinelDoc])).length ∧
    needs_wikipedia "irrelevant".data (formatDocs [longSentinelDoc]) = true := by
  constructor
  · decide
  · decide

/-- C1 (amended): for every question and every primary text that does not
contain the no-documents substring and whose trimmed length is at least
500, the sufficiency evaluator returns false. -/
theorem needs_wikipedia_false_of_long (question text : Str)
    (h1 : containsSubstr noDocsCheck text = false)
    (h2 : 500 ≤ (pyStrip text).length) :
    needs_wikipedia question text = false := by
  have hne : text.isEmpty = false := isEmpty_false_of_strip_pos text (by omega)
  have h100 : ¬ (pyStrip text).length < 100 := by omega
  have h200 : ¬ (pyStrip text).length < 200 := by omega
  have h500 : ¬ (pyStrip text).length < 500 := by omega
  simp [needs_wikipedia, should_use_wikipedia, h1, hne, h100, h200, h500]

/-- Witness for the amended C1 at a concrete long input. -/
theorem needs_wikipedia_false_of_long_witness :
    needs_wikipedia "what is x".data (List.replicate 500 'b') = false :=
  needs_wikipedia_false_of_long "what is x".data (List.replicate 500 'b')
    (by decide) (by decide)

/-- C2: for a primary text without the no-documents substring and trimmed
length in [200, 500), the sufficiency evaluator returns true iff the
lower-cased question contains one of the nine indicator patterns. -/
theorem needs_wikipedia_pattern_iff (question text : Str)
    (h1 : containsSubstr noDocsCheck text = false)
    (h2 : 200 ≤ (pyStrip text).length)
    (h3 : (pyStrip text).length < 500) :
    (needs_wikipedia question text = true ↔
      ∃ p ∈ general_knowledge_indicators,
        containsSubstr p (pyLower question) = true) := by
  have hne : text.isEmpty = false := isEmpty_false_of_strip_pos text (by omega)
  have h100 : ¬ (pyStrip text).length < 100 := by omega
  have h200 : ¬ (pyStrip text).length < 200 := by omega
  simp [needs_wikipedia, should_use_wikipedia, h1, hne, h100, h200, h3,
    List.any_eq_true]

/-- Witness for C2: a general-knowledge question over a mid-length text
triggers the fallback. -/
theorem needs_wikipedia_pattern_iff_witness :
    needs_wikipedia "What is quantum entanglement?".data (List.replicate 300 'c')
      = true :=
  (needs_wikipedia_pattern_iff "What is quantum entanglement?".data
      (List.replicate 300 'c') (by decide) (by decide) (by decide)).mpr
    ⟨"what is".data, by decide, by decide⟩

/-- C5: for a doc list longer than 8, `format` joins exactly 8 rendered
sections, numbered 1 through 8 in input order, with blank-line
separators; items past the eighth do not influence the output; and the
empty list formats to exactly the no-documents sentinel. -/
theorem format_truncates_to_eight (docs : List Document) (h : 8 < docs.length) :
    formatDocs docs = List.intercalate nl2 (renderFrom 1 (docs.take 8)) ∧
    (renderFrom 1 (docs.take 8)).length = 8 ∧
    (∀ k, k < 8 →
      (renderFrom 1 (docs.take 8))[k]? = (docs[k]?).map (renderDoc (1 + k))) ∧
    formatDocs docs = formatDocs (docs.take 8) ∧
    formatDocs [] = noDocsSentinel := by
  have hne : docs.isEmpty = false := by
    cases docs with
    | nil => simp at h
    | cons a l => rfl
  have hne8 : (docs.take 8).isEmpty = false := by
    cases docs with
    | nil => simp at h
    | cons a l => rfl
  refine ⟨?_, ?_, ?_, ?_, rfl⟩
  · simp [formatDocs, hne]
  · rw [renderFrom_length, List.length_take]
    omega
  · intro k hk
    rw [renderFrom_getElem?, List.getElem?_take_of_lt hk]
  · simp [formatDocs, hne, hne8, List.take_take]

/-- Witness for C5: nine documents format to exactly eight sections. -/
theorem format_truncates_to_eight_witness :
    (renderFrom 1 (nineDocs.take 8)).length = 8 :=
  (format_truncates_to_eight nineDocs (by decide)).2.1

/-- C6: the label used when rendering item number `i` is the metadata
title when present and non-empty, else the metadata source when present
and non-empty, else `doc_i`; the rendered list numbers items by their
1-based position. -/
theorem label_selection (d : Document) (i : Nat) :
    (∀ t, lookupMeta d.metadata "title".data = some t → t ≠ [] →
        chooseTitle d.metadata i = t) ∧
    (truthyStr (lookupMeta d.metadata "title".data) = false →
      ∀ s, lookupMeta d.metadata "source".data = some s → s ≠ [] →
        chooseTitle d.metadata i = s) ∧
    (truthyStr (lookupMeta d.metadata "title".data) = false →
      truthyStr (lookupMeta d.metadata "source".data) = false →
        chooseTitle d.metadata i = docLabel i) ∧
    (∀ ds k, (renderFrom 1 ds)[k]? = (ds[k]?).map (renderDoc (1 + k))) ∧
    renderDoc i d = "[".data ++ (Nat.repr i).data ++ "] ".data
        ++ chooseTitle d.metadata i ++ "\n".data ++ d.page_content := by
  refine ⟨?_, ?_, ?_, fun ds k => renderFrom_getElem? ds 1 k, rfl⟩
  · intro t ht htne
    have ht' : t.isEmpty = false := by simpa [List.isEmpty_iff] using htne
    simp [chooseTitle, ht, pyOrStr, ht']
  · intro htr s hs hsne
    have hs' : s.isEmpty = false := by simpa [List.isEmpty_iff] using hsne
    cases hmt : lookupMeta d.metadata "title".data with
    | none => simp [chooseTitle, hmt, hs, pyOrStr, hs']
    | some t =>
      rw [hmt] at htr
      simp [truthyStr] at htr
      simp [chooseTitle, hmt, hs, pyOrStr, htr, hs']
  · intro htr hsr
    cases hmt : lookupMeta d.metadata "title".data with
    | none =>
      cases hms : lookupMeta d.metadata "source".data with
      | none => simp [chooseTitle, hmt, hms, pyOrStr]
      | some s =>
        rw [hms] at hsr
        simp [truthyStr] at hsr
        simp [chooseTitle, hmt, hms, pyOrStr, hsr]
    | some t =>
      rw [hmt] at htr
      simp [truthyStr] at htr
      cases hms : lookupMeta d.metadata "source".data with
      | none => simp [chooseTitle, hmt, hms, pyOrStr, htr]
      | some s =>
        rw [hms] at hsr
        simp [truthyStr] at hsr
        simp [chooseTitle, hmt, hms, pyOrStr, htr, hsr]

/-- Witness for C6: a present non-empty title wins. -/
theorem label_selection_witness :
    chooseTitle [("title".data, "T".data)] 1 = "T".data :=
  (label_selection { page_content := [], metadata := [("title".data, "T".data)] }
      1).1 "T".data (by decide) (by decide)

/-- C7: the assembled context is the no-relevant-information sentinel iff
no section qualifies; the corpus section qualifies only without the
no-documents substring; the Wikipedia section qualifies only when the
fallback was consulted and its text lacks the could-not-retrieve
substring; qualifying sections join corpus-first with a blank line. -/
theorem assemble_spec (rr wr : Str) (needs : Bool) :
    (fullContext (contextParts rr needs wr) = noRelevantSentinel ↔
      contextParts rr needs wr = []) ∧
    (corpusSection rr ≠ [] → containsSubstr noDocsCheck rr = false) ∧
    ((if needs then wikiSection wr else []) ≠ [] →
      needs = true ∧ containsSubstr couldNotRetrieveCheck wr = false) ∧
    (∀ c w, corpusSection rr = [c] →
      (if needs then wikiSection wr else []) = [w] →
      fullContext (contextParts rr needs wr) = c ++ nl2 ++ w) := by
  refine ⟨⟨?_, ?_⟩, ?_, ?_, ?_⟩
  · intro hctx
    by_contra hne
    rcases corpusSection_cases rr with hc | hc <;> cases needs <;>
      rcases wikiSection_cases wr with hw | hw <;>
      simp [contextParts, hc, hw] at hctx hne
    · rw [fullContext_single] at hctx
      exact ne_sentinel_of_head ("Wikipedia results:\n".data ++ wr) 'W' rfl
        (by decide) hctx
    · rw [fullContext_single] at hctx
      exact ne_sentinel_of_head ("Document corpus results:\n".data ++ rr) 'D' rfl
        (by decide) hctx
    · rw [fullContext_single] at hctx
      exact ne_sentinel_of_head ("Document corpus results:\n".data ++ rr) 'D' rfl
        (by decide) hctx
    · rw [fullContext_single] at hctx
      exact ne_sentinel_of_head ("Document corpus results:\n".data ++ rr) 'D' rfl
        (by decide) hctx
    · rw [fullContext_pair] at hctx
      exact ne_sentinel_of_head
        (("Document corpus results:\n".data ++ rr) ++ nl2
          ++ ("Wikipedia results:\n".data ++ wr)) 'D' rfl (by decide) hctx
  · intro h
    rw [h]
    rfl
  · intro h
    by_cases hcond : (!rr.isEmpty && !containsSubstr noDocsCheck rr) = true
    · simp only [Bool.and_eq_true, Bool.not_eq_true'] at hcond
      exact hcond.2
    · exfalso
      apply h
      unfold corpusSection
      rw [if_neg hcond]
  · cases needs with
    | false => simp
    | true =>
      intro h
      refine ⟨rfl, ?_⟩
      simp only [if_true] at h
      by_cases hcond :
          (!wr.isEmpty && !containsSubstr couldNotRetrieveCheck wr) = true
      · simp only [Bool.and_eq_true, Bool.not_eq_true'] at hcond
        exact hcond.2
      · exfalso
        apply h
        unfold wikiSection
        rw [if_neg hcond]
  · intro c w hc hw
    simp only [contextParts, hc, hw]
    rw [show [c] ++ [w] = [c, w] from rfl, fullContext_pair]

/-- Witness for C7: with a sentinel-laden primary text and no fallback,
the context is the no-relevant-information sentinel. -/
theorem assemble_spec_witness :
    fullContext (contextParts noDocsSentinel false "".data) = noRelevantSentinel :=
  (assemble_spec noDocsSentinel "".data false).1.mpr (by decide)

/-- C8: `_get_wikipedia_results` never raises (its result is a plain
string) and converts any backend failure into exactly the
could-not-retrieve sentinel. -/
theorem wiki_fetch_catches_failure {ε : Type} (wikiBackend : Str → Except ε Str)
    (query : Str) (e : ε) (h : wikiBackend query = .error e) :
    get_wikipedia_results wikiBackend query = couldNotRetrieveSentinel := by
  simp [get_wikipedia_results, h]

/-- Witness for C8: a backend that always raises yields the sentinel. -/
theorem wiki_fetch_catches_failure_witness :
    get_wikipedia_results (fun _ : Str => (Except.error () : Except Unit Str))
      "q".data = couldNotRetrieveSentinel :=
  wiki_fetch_catches_failure (fun _ => Except.error ()) "q".data () rfl

/-- C9: a raising primary retriever, or a raising language model, aborts
`run`: the exception propagates and no record is returned. -/
theorem run_propagates_fatal {ε : Type} (C : Collaborators ε) (question : Str)
    (e : ε) :
    (C.retriever question = .error e → runPipeline C question = .error e) ∧
    (∀ docs, C.retriever question = .ok docs → (∀ p, C.llm p = .error e) →
      runPipeline C question = .error e) := by
  constructor
  · intro h
    unfold runPipeline
    rw [h]
    rfl
  · intro docs hr hllm
    simp [runPipeline, get_retriever_results, hr, hllm]
    rfl

/-- Witness for C9: a retriever failure surfaces from `run`. -/
theorem run_propagates_fatal_witness :
    runPipeline failRetrieverC "q".data = Except.error 0 :=
  (run_propagates_fatal failRetrieverC "q".data 0).1 rfl

/-- C4: when the retriever and the model succeed, `run` returns a record
with exactly the fields question, retrieved docs and answer, where the
docs are the retriever's complete unfiltered output and the answer is
always present. -/
theorem run_returns_record {ε : Type} (C : Collaborators ε) (question : Str)
    (docs : List Document) (f : Str → Response)
    (h1 : C.retriever question = .ok docs)
    (h2 : ∀ p, C.llm p = .ok (f p)) :
    runPipeline C question =
      .ok { question := question
            retrieved_docs := docs
            answer :=
              pyOrStr (f (buildPrompt (fullContext (contextParts
                (formatDocs docs) (needs_wikipedia question (formatDocs docs))
                (get_wikipedia_results C.wikiBackend question))) question)).content
                couldNotGenerate } := by
  simp [runPipeline, get_retriever_results, h1, h2]
  rfl

/-- Witness for C4 on concrete always-succeeding collaborators. -/
theorem run_returns_record_witness :
    runPipeline okC "q".data =
      .ok { question := "q".data
            retrieved_docs := []
            answer := "hi".data } := by
  have h := run_returns_record okC "q".data []
    (fun _ => { content := some "hi".data }) rfl (fun _ => rfl)
  exact h

/-- C10: a model response whose content is absent or empty yields the
could-not-generate sentinel as the record's answer. -/
theorem empty_content_gives_sentinel {ε : Type} (C : Collaborators ε)
    (question : Str) (docs : List Document) (resp : Response)
    (h1 : C.retriever question = .ok docs)
    (h2 : ∀ p, C.llm p = .ok resp)
    (h3 : resp.content = none ∨ resp.content = some []) :
    runPipeline C question =
      .ok { question := question
            retrieved_docs := docs
            answer := couldNotGenerate } := by
  rcases h3 with h3 | h3 <;>
    simp [runPipeline, get_retriever_results, h1, h2, h3, pyOrStr] <;>
    rfl

/-- Witness for C10: a contentless response gives the sentinel answer. -/
theorem empty_content_gives_sentinel_witness :
    runPipeline noContentC "q".data =
      .ok { question := "q".data
            retrieved_docs := []
            answer := couldNotGenerate } :=
  empty_content_gives_sentinel noContentC "q".data [] { content := none }
    rfl (fun _ => rfl) (Or.inl rfl)
